import Mathlib

/-!
Shallow embedding of the audit orchestration core of the
`lighthouse-automation` package, together with proofs about it.

The definitions below are translated from the TypeScript sources:

* `src/types/config.ts` — configuration types, `getRouteThresholds`,
  `normalizeSameSite`;
* `src/utils/cookie-manager.ts` — the `CookieManager` class
  (`getNormalized`, `getByDomain`, `isEmpty`, `asPlaywrightCookies`);
* `src/utils/lighthouse-runner.ts` — the `LighthouseRunner.run` flow:
  cookie injection, navigation, selector wait, engine invocation, score
  extraction/normalization and threshold evaluation.

Numbers are modelled as rationals (JavaScript numbers, exact for the
arithmetic the code performs: division by 100 and comparisons).  External
effects (URL parsing, browser launch, file loading, navigation, the audit
engine) are modelled by an explicit environment record `RunEnv`; the run
flow additionally threads a `RunTrace` recording the observable resource
events (context acquire/release, cookie injection, navigation attempts).
-/

deriving instance DecidableEq for Except

namespace LighthouseAutomation

/-- Model of the JavaScript expression `s.endsWith(suffix)` on strings:
`suffix` is a suffix of `s`. -/
def strEndsWith (s suffix : String) : Bool :=
  suffix.data.isSuffixOf s.data

/-- Model of the JavaScript expression `s.toLowerCase()` (character-wise
lowering, which is what the code relies on for the SameSite keywords). -/
def strToLower (s : String) : String :=
  String.mk (s.data.map Char.toLower)

/-- Model of the JavaScript expression `s || dflt` on an optional string
field: `undefined`/absent and the empty string are falsy and yield the
default. -/
def jsStringOr (s : Option String) (dflt : String) : String :=
  match s with
  | none => dflt
  | some v => if v = "" then dflt else v

/-- Cookie record from `src/types/config.ts` (`Cookie` interface).  The
`domain` field is declared `string` in TypeScript but the runtime code
guards it with `cookie.domain || ''`, so it is embedded as an optional
string (absent = `none`). -/
structure Cookie where
  domain : Option String := none
  name : String := ""
  value : String := ""
  path : Option String := none
  secure : Option Bool := none
  httpOnly : Option Bool := none
  sameSite : Option String := none
  expirationDate : Option ℚ := none
  deriving DecidableEq, Repr

/-- Translation of `normalizeSameSite` from `src/types/config.ts`:
`if (!sameSite) return 'Lax'`, then lower-case comparison against
`strict` / `lax` / `none` / `no_restriction`, defaulting to `Lax`. -/
def normalizeSameSite (sameSite : Option String) : String :=
  match sameSite with
  | none => "Lax"
  | some s =>
    if s = "" then "Lax"
    else
      let lower := strToLower s
      if lower = "strict" then "Strict"
      else if lower = "lax" then "Lax"
      else if lower = "none" ∨ lower = "no_restriction" then "None"
      else "Lax"

/-- One element of `CookieManager.getNormalized`:
`{ ...cookie, sameSite: normalizeSameSite(cookie.sameSite) }`. -/
def normalizeCookie (cookie : Cookie) : Cookie :=
  { cookie with sameSite := some (normalizeSameSite cookie.sameSite) }

namespace CookieManager

/-- Translation of `CookieManager.getNormalized` from
`src/utils/cookie-manager.ts`; the manager's private cookie list is passed
explicitly. -/
def getNormalized (cookies : List Cookie) : List Cookie :=
  cookies.map normalizeCookie

/-- Filter predicate of `CookieManager.getByDomain`:
`cookieDomain === domain || cookieDomain === "." + domain ||
domain.endsWith(cookieDomain)` with `cookieDomain = cookie.domain || ''`. -/
def cookieMatchesDomain (cookie : Cookie) (domain : String) : Bool :=
  let cookieDomain := jsStringOr cookie.domain ""
  decide (cookieDomain = domain) ||
  decide (cookieDomain = "." ++ domain) ||
  strEndsWith domain cookieDomain

/-- Translation of `CookieManager.getByDomain` from
`src/utils/cookie-manager.ts`. -/
def getByDomain (cookies : List Cookie) (domain : String) : List Cookie :=
  (getNormalized cookies).filter (fun cookie => cookieMatchesDomain cookie domain)

/-- Translation of `CookieManager.isEmpty`. -/
def isEmpty (cookies : List Cookie) : Bool :=
  cookies.isEmpty

/-- Translation of `CookieManager.asPlaywrightCookies`, which simply
returns `getNormalized()`. -/
def asPlaywrightCookies (cookies : List Cookie) : List Cookie :=
  getNormalized cookies

end CookieManager

/-- Threshold set from `src/types/config.ts` (`LighthouseThresholds`);
`bestPractices` embeds the `'best-practices'` key. -/
structure LighthouseThresholds where
  performance : Option ℚ := none
  accessibility : Option ℚ := none
  bestPractices : Option ℚ := none
  seo : Option ℚ := none
  deriving DecidableEq, Repr

/-- Model of the JavaScript nullish-coalescing operator `a ?? b` on
optional values. -/
def nullish (a b : Option ℚ) : Option ℚ :=
  match a with
  | some v => some v
  | none => b

/-- Translation of `getRouteThresholds` from `src/types/config.ts`:
`routeThresholds?.key ?? globalThresholds.key ?? default`, with defaults
performance 25 and 50 for the other three categories. -/
def getRouteThresholds (globalThresholds : LighthouseThresholds)
    (routeThresholds : Option LighthouseThresholds) : LighthouseThresholds :=
  { performance :=
      some ((nullish (routeThresholds.bind fun t => t.performance)
        globalThresholds.performance).getD 25)
    accessibility :=
      some ((nullish (routeThresholds.bind fun t => t.accessibility)
        globalThresholds.accessibility).getD 50)
    bestPractices :=
      some ((nullish (routeThresholds.bind fun t => t.bestPractices)
        globalThresholds.bestPractices).getD 50)
    seo :=
      some ((nullish (routeThresholds.bind fun t => t.seo)
        globalThresholds.seo).getD 50) }

/-- Route record from `src/types/config.ts`. -/
structure Route where
  name : String
  path : String
  authenticated : Option Bool := none
  thresholds : Option LighthouseThresholds := none
  displayName : Option String := none
  waitFor : Option String := none
  deriving DecidableEq, Repr

/-- The four category scores extracted by `LighthouseRunner.run` (the
`scores` object in `src/utils/lighthouse-runner.ts`). -/
structure CategoryScores where
  performance : ℚ
  accessibility : ℚ
  bestPractices : ℚ
  seo : ℚ
  deriving DecidableEq, Repr

/-- Raw category scores as read from the engine report
(`categories.X?.score`); a score may be absent. -/
structure RawCategories where
  performance : Option ℚ := none
  accessibility : Option ℚ := none
  bestPractices : Option ℚ := none
  seo : Option ℚ := none
  deriving DecidableEq, Repr

/-- Normalization step of `LighthouseRunner.run` (lines 262-271): if the
performance score is greater than 1 the whole report is treated as
0-100 scale and every category is divided by 100, otherwise the scores
are left unchanged. -/
def normalizeScores (scores : CategoryScores) : CategoryScores :=
  if scores.performance > 1 then
    { performance := scores.performance / 100
      accessibility := scores.accessibility / 100
      bestPractices := scores.bestPractices / 100
      seo := scores.seo / 100 }
  else
    scores

/-- The `missingScores` computation of `LighthouseRunner.run`: category
keys whose extracted score is `undefined`, in object-insertion order. -/
def missingScores (categories : RawCategories) : List String :=
  (if categories.performance.isNone then ["performance"] else []) ++
  (if categories.accessibility.isNone then ["accessibility"] else []) ++
  (if categories.bestPractices.isNone then ["best-practices"] else []) ++
  (if categories.seo.isNone then ["seo"] else [])

/-- Threshold check of `LighthouseRunner.run` (lines 279-283):
`scores.key >= (thresholds.key ?? 0) / 100` for all four categories. -/
def auditPassed (scores : CategoryScores) (thresholds : LighthouseThresholds) : Bool :=
  decide (scores.performance ≥ (thresholds.performance.getD 0) / 100) &&
  decide (scores.accessibility ≥ (thresholds.accessibility.getD 0) / 100) &&
  decide (scores.bestPractices ≥ (thresholds.bestPractices.getD 0) / 100) &&
  decide (scores.seo ≥ (thresholds.seo.getD 0) / 100)

/-- Audit result record from `src/types/config.ts` (`AuditResult`). -/
structure AuditResult where
  routeName : String
  url : String
  scores : CategoryScores
  thresholds : LighthouseThresholds
  passed : Bool
  deriving DecidableEq, Repr

/-- Cookie in the shape handed to Playwright `context.addCookies` by
`LighthouseRunner.run` (lines 109-118). -/
structure PlaywrightCookie where
  name : String
  value : String
  domain : String
  path : String
  secure : Option Bool := none
  httpOnly : Option Bool := none
  sameSite : Option String := none
  expires : Option ℚ := none
  deriving DecidableEq, Repr

/-- The per-cookie mapping of `LighthouseRunner.run` lines 109-118:
`domain: cookie.domain || ''`, `path: cookie.path || '/'`, the rest
copied. -/
def toPlaywrightCookie (cookie : Cookie) : PlaywrightCookie :=
  { name := cookie.name
    value := cookie.value
    domain := jsStringOr cookie.domain ""
    path := jsStringOr cookie.path "/"
    secure := cookie.secure
    httpOnly := cookie.httpOnly
    sameSite := cookie.sameSite
    expires := cookie.expirationDate }

/-- Constructor options of `LighthouseRunner`
(`LighthouseRunnerOptions` in `src/utils/lighthouse-runner.ts`). -/
structure LighthouseRunnerOptions where
  baseUrl : String
  route : Route
  globalThresholds : Option LighthouseThresholds := none
  authFile : Option String := none
  reportDir : Option String := none
  viewportWidth : Option ℕ := none
  viewportHeight : Option ℕ := none
  verbose : Option Bool := none
  deriving Repr

/-- Outcome of `page.goto` in `LighthouseRunner.run`: the call may throw,
return `null` (no response), or return a response with an HTTP status. -/
inductive NavOutcome
  | gotoThrown
  | noResponse
  | response (status : ℕ)
  deriving DecidableEq, Repr

/-- Cause recorded in the navigation-failure error message of
`LighthouseRunner.run`: the inner message mentions the status only when a
response with status ≥ 400 was received; in every case the wrapping
message carries the resolved URL. -/
inductive NavCause
  | gotoThrown
  | noResponse
  | httpStatus (status : ℕ)
  deriving DecidableEq, Repr

/-- Outcome of the `playAudit` engine invocation: it may throw, return an
empty report, return a report without a `categories` object, or return
category scores. -/
inductive EngineOutcome
  | playAuditThrew
  | emptyReport
  | noCategories
  | report (categories : RawCategories)
  deriving DecidableEq, Repr

/-- Failure kinds of `LighthouseRunner.run`, one per distinct `throw`
site.  The code throws `Error` values whose messages carry the listed
data; the outer catch at the end of `run` re-wraps the message with the
route name but preserves the failing kind and its data, so errors are
modelled by their kind directly. -/
inductive RunError
  | invalidUrl (url : String)
  | launchFailed
  | authFileNotConfigured (routeName : String)
  | authLoadFailed (routeName : String) (authFile : String)
  | authNoCookies (authFile : String)
  | navigationError (url : String) (cause : NavCause)
  | selectorTimeout (selector : String) (url : String)
  | auditFailed (routeName : String)
  | categoriesMissing (routeName : String)
  | scoreExtractionFailed (routeName : String) (missing : List String)
  deriving DecidableEq, Repr

/-- Environment record abstracting the external effects touched by
`LighthouseRunner.run`: whether `new URL(url)` succeeds, whether the
browser context launches, the result of `CookieManager.load(authFile)`,
the navigation outcome, whether the `waitFor` selector becomes visible
within the timeout, and the engine invocation outcome. -/
structure RunEnv where
  urlValid : Bool := true
  launchOk : Bool := true
  authLoad : Except Unit (List Cookie) := Except.ok []
  nav : NavOutcome := NavOutcome.response 200
  selectorVisible : Bool := true
  engine : EngineOutcome := EngineOutcome.playAuditThrew
  deriving Repr

/-- Trace of the observable resource events of one `run` invocation:
whether the browser context was acquired, how many times it was closed,
the exact cookie list passed to `context.addCookies` (when reached), and
whether `page.goto` was invoked. -/
structure RunTrace where
  contextAcquired : Bool := false
  contextReleased : ℕ := 0
  cookiesInjected : Option (List PlaywrightCookie) := none
  navigationAttempted : Bool := false
  deriving DecidableEq, Repr

namespace LighthouseRunner

/-- The four extracted category scores of `LighthouseRunner.run`
(lines 246-251); reached only when no score is missing, so the `getD 0`
defaults never materialize. -/
def extractedScores (categories : RawCategories) : CategoryScores :=
  { performance := categories.performance.getD 0
    accessibility := categories.accessibility.getD 0
    bestPractices := categories.bestPractices.getD 0
    seo := categories.seo.getD 0 }

/-- Engine invocation and score extraction/evaluation tail of
`LighthouseRunner.run` (lines 170-296): run the engine, extract the four
category scores (missing ones are a hard error), normalize, and compare
against the effective thresholds computed via `getRouteThresholds`.  (The
code computes the thresholds before invoking the engine; both are pure,
so the order is unobservable.) -/
def auditStep (opts : LighthouseRunnerOptions) (env : RunEnv) (url : String)
    (t : RunTrace) : Except RunError AuditResult × RunTrace :=
  match env.engine with
  | EngineOutcome.playAuditThrew => (Except.error (RunError.auditFailed opts.route.name), t)
  | EngineOutcome.emptyReport => (Except.error (RunError.auditFailed opts.route.name), t)
  | EngineOutcome.noCategories => (Except.error (RunError.categoriesMissing opts.route.name), t)
  | EngineOutcome.report categories =>
    if (missingScores categories).isEmpty then
      (Except.ok
        { routeName := opts.route.name
          url := url
          scores := normalizeScores (extractedScores categories)
          thresholds := getRouteThresholds (opts.globalThresholds.getD {})
            opts.route.thresholds
          passed := auditPassed (normalizeScores (extractedScores categories))
            (getRouteThresholds (opts.globalThresholds.getD {}) opts.route.thresholds) }, t)
    else
      (Except.error (RunError.scoreExtractionFailed opts.route.name
        (missingScores categories)), t)

/-- Cookie-injection step of `LighthouseRunner.run` (lines 76-121): for
an authenticated route, a missing `authFile` option, a failing
`CookieManager.load`, and an empty cookie list are three distinct errors;
otherwise the full normalized cookie list, mapped to Playwright shape, is
injected.  Unauthenticated routes inject nothing. -/
def cookieInjection (opts : LighthouseRunnerOptions) (env : RunEnv) :
    Except RunError (Option (List PlaywrightCookie)) :=
  if opts.route.authenticated.getD false then
    match opts.authFile with
    | none => Except.error (RunError.authFileNotConfigured opts.route.name)
    | some authFile =>
      match env.authLoad with
      | Except.error _ => Except.error (RunError.authLoadFailed opts.route.name authFile)
      | Except.ok cookies =>
        if CookieManager.isEmpty cookies then
          Except.error (RunError.authNoCookies authFile)
        else
          Except.ok (some ((CookieManager.asPlaywrightCookies cookies).map toPlaywrightCookie))
  else
    Except.ok none

/-- Trace state after the navigation attempt: cookies (if any) have been
injected and `page.goto` has been invoked. -/
def afterNavTrace (t0 : RunTrace) (injected : Option (List PlaywrightCookie)) : RunTrace :=
  { t0 with cookiesInjected := injected, navigationAttempted := true }

/-- Body of the inner `try` of `LighthouseRunner.run` (lines 75-296),
executed once the browser context is acquired: optional cookie injection
for authenticated routes, navigation, optional selector wait, then
`auditStep`. -/
def runBody (opts : LighthouseRunnerOptions) (env : RunEnv) (url : String)
    (t0 : RunTrace) : Except RunError AuditResult × RunTrace :=
  match cookieInjection opts env with
  | Except.error e => (Except.error e, t0)
  | Except.ok injected =>
    match env.nav with
    | NavOutcome.gotoThrown =>
      (Except.error (RunError.navigationError url NavCause.gotoThrown), afterNavTrace t0 injected)
    | NavOutcome.noResponse =>
      (Except.error (RunError.navigationError url NavCause.noResponse), afterNavTrace t0 injected)
    | NavOutcome.response status =>
      if status ≥ 400 then
        (Except.error (RunError.navigationError url (NavCause.httpStatus status)),
          afterNavTrace t0 injected)
      else
        match opts.route.waitFor with
        | some selector =>
          if env.selectorVisible then auditStep opts env url (afterNavTrace t0 injected)
          else (Except.error (RunError.selectorTimeout selector url), afterNavTrace t0 injected)
        | none => auditStep opts env url (afterNavTrace t0 injected)

/-- Translation of `LighthouseRunner.run` from
`src/utils/lighthouse-runner.ts`: resolve the URL as
`baseUrl + route.path`, validate it, launch the browser context, run
`runBody` inside the inner `try`/`catch` that closes the context exactly
once on both the success and the error path, and propagate the result. -/
def run (opts : LighthouseRunnerOptions) (env : RunEnv) :
    Except RunError AuditResult × RunTrace :=
  if env.urlValid = false then
    (Except.error (RunError.invalidUrl (opts.baseUrl ++ opts.route.path)), {})
  else if env.launchOk = false then
    (Except.error RunError.launchFailed, {})
  else
    match runBody opts env (opts.baseUrl ++ opts.route.path) { contextAcquired := true } with
    | (Except.ok result, t) =>
      (Except.ok result, { t with contextReleased := t.contextReleased + 1 })
    | (Except.error e, t) =>
      (Except.error e, { t with contextReleased := t.contextReleased + 1 })

end LighthouseRunner

/-- All four category scores lie in the canonical unit interval [0,1]. -/
def scoresInUnit (s : CategoryScores) : Prop :=
  (0 ≤ s.performance ∧ s.performance ≤ 1) ∧
  (0 ≤ s.accessibility ∧ s.accessibility ≤ 1) ∧
  (0 ≤ s.bestPractices ∧ s.bestPractices ≤ 1) ∧
  (0 ≤ s.seo ∧ s.seo ≤ 1)

instance (s : CategoryScores) : Decidable (scoresInUnit s) := by
  unfold scoresInUnit; infer_instance

/-- All four category scores lie in the 0-100 scale range. -/
def scoresInRange100 (s : CategoryScores) : Prop :=
  (0 ≤ s.performance ∧ s.performance ≤ 100) ∧
  (0 ≤ s.accessibility ∧ s.accessibility ≤ 100) ∧
  (0 ≤ s.bestPractices ∧ s.bestPractices ≤ 100) ∧
  (0 ≤ s.seo ∧ s.seo ≤ 100)

instance (s : CategoryScores) : Decidable (scoresInRange100 s) := by
  unfold scoresInRange100; infer_instance

/-- Three-layer merge behaviour for one threshold key: the merged value is
the per-route value when present, else the global value when present, else
the built-in default. -/
def mergesKey (routeVal globalVal merged : Option ℚ) (dflt : ℚ) : Prop :=
  (∀ v, routeVal = some v → merged = some v) ∧
  (routeVal = none → ∀ v, globalVal = some v → merged = some v) ∧
  (routeVal = none → globalVal = none → merged = some dflt)

/-- The cookie-injection step of `LighthouseRunner.run` succeeds: either
the route is not authenticated, or an auth file is configured, loads, and
yields a non-empty cookie list. -/
def authStepOk (opts : LighthouseRunnerOptions) (env : RunEnv) : Prop :=
  opts.route.authenticated.getD false = false ∨
  (∃ authFile cookies, opts.authFile = some authFile ∧
    env.authLoad = Except.ok cookies ∧ CookieManager.isEmpty cookies = false)

/-- Unauthenticated route used by the concrete scenarios. -/
def homeOptions : LighthouseRunnerOptions :=
  { baseUrl := "https://example.com", route := { name := "home", path := "/" } }

/-- A raw engine report on the 0-100 scale whose performance score happens
to be 1 (a failing page): the normalization heuristic reads it as a 0-1
scale report. -/
def misScaledCategories : RawCategories :=
  { performance := some 1, accessibility := some 92,
    bestPractices := some 88, seo := some 95 }

/-- Environment in which the engine returns `misScaledCategories` and all
other external effects succeed. -/
def misScaledEnv : RunEnv :=
  { engine := EngineOutcome.report misScaledCategories }

/-- The audit outcome the code produces for `homeOptions` under
`misScaledEnv`. -/
def misScaledResult : AuditResult :=
  { routeName := "home"
    url := "https://example.com/"
    scores := { performance := 1, accessibility := 92, bestPractices := 88, seo := 95 }
    thresholds := { performance := some 25, accessibility := some 50,
                    bestPractices := some 50, seo := some 50 }
    passed := true }

/-- A stored credential scoped to a domain unrelated to
`https://example.com`. -/
def otherDomainCookie : Cookie :=
  { domain := some "other.com", name := "sid", value := "abc" }

/-- A stored credential in dot-prefixed wildcard form. -/
def wildcardCookie : Cookie :=
  { domain := some ".example.com", name := "sid", value := "abc" }

/-- A stored credential with no domain field. -/
def emptyDomainCookie : Cookie :=
  { name := "sid", value := "abc" }

/-- Authenticated route against `https://example.com` with an auth file
configured. -/
def dashOptions : LighthouseRunnerOptions :=
  { baseUrl := "https://example.com"
    route := { name := "dash", path := "/dash", authenticated := some true }
    authFile := some "auth.json" }

/-- Authenticated route with no auth file configured. -/
def noAuthFileOptions : LighthouseRunnerOptions :=
  { baseUrl := "https://example.com"
    route := { name := "dash", path := "/dash", authenticated := some true } }

/-- Environment in which the auth file loads and contains exactly
`otherDomainCookie`. -/
def dashEnv : RunEnv :=
  { authLoad := Except.ok [otherDomainCookie] }

/-- Scenario A of the spec: 0-100-scale scores 78/92/88/95 against
thresholds 50/80/80/80. -/
def scenarioAOptions : LighthouseRunnerOptions :=
  { baseUrl := "https://example.com"
    route := { name := "home", path := "/" }
    globalThresholds := some
      { performance := some 50, accessibility := some 80,
        bestPractices := some 80, seo := some 80 } }

/-- Environment for scenario A: navigation returns 200 and the engine
reports 0-100-scale scores. -/
def scenarioAEnv : RunEnv :=
  { engine := EngineOutcome.report
      { performance := some 78, accessibility := some 92,
        bestPractices := some 88, seo := some 95 } }

/-- The audit outcome the code produces for scenario A. -/
def scenarioAResult : AuditResult :=
  { routeName := "home"
    url := "https://example.com/"
    scores := { performance := 78 / 100, accessibility := 92 / 100,
                bestPractices := 88 / 100, seo := 95 / 100 }
    thresholds := { performance := some 50, accessibility := some 80,
                    bestPractices := some 80, seo := some 80 }
    passed := true }

/-! ### Helper lemmas -/

theorem strEndsWith_empty (t : String) : strEndsWith t "" = true := by
  simp [strEndsWith, List.isSuffixOf, List.isPrefixOf]

theorem jsStringOr_some_empty (s : String) : jsStringOr (some s) "" = s := by
  by_cases h : s = "" <;> simp [jsStringOr, h]

theorem normalizeCookie_domain (c : Cookie) : (normalizeCookie c).domain = c.domain := rfl

theorem mem_getByDomain (cookies : List Cookie) (c : Cookie) (t : String) (hc : c ∈ cookies) :
    normalizeCookie c ∈ CookieManager.getByDomain cookies t ↔
      CookieManager.cookieMatchesDomain (normalizeCookie c) t = true := by
  unfold CookieManager.getByDomain CookieManager.getNormalized
  rw [List.mem_filter]
  constructor
  · rintro ⟨_, hp⟩; exact hp
  · intro hp; exact ⟨List.mem_map_of_mem _ hc, hp⟩

theorem cookieMatchesDomain_some (c : Cookie) (d t : String) (hd : c.domain = some d) :
    CookieManager.cookieMatchesDomain c t = true ↔
      (d = t ∨ d = "." ++ t ∨ strEndsWith t d = true) := by
  simp [CookieManager.cookieMatchesDomain, hd, jsStringOr_some_empty,
    Bool.or_eq_true, decide_eq_true_eq, or_assoc]

theorem div_100_le_iff (a b : ℚ) : b / 100 ≤ a ↔ b ≤ a * 100 := by
  rw [div_le_iff₀ (by norm_num : (0:ℚ) < 100)]

theorem auditPassed_true_iff (s : CategoryScores) (tp ta tb ts : ℚ) :
    auditPassed s { performance := some tp, accessibility := some ta,
                    bestPractices := some tb, seo := some ts } = true ↔
      (s.performance * 100 ≥ tp ∧ s.accessibility * 100 ≥ ta ∧
       s.bestPractices * 100 ≥ tb ∧ s.seo * 100 ≥ ts) := by
  simp [auditPassed, Bool.and_eq_true, decide_eq_true_eq, ge_iff_le, div_100_le_iff,
    and_assoc]

theorem runBody_trace (opts : LighthouseRunnerOptions) (env : RunEnv) (url : String)
    (t0 : RunTrace) :
    (LighthouseRunner.runBody opts env url t0).2.contextReleased = t0.contextReleased ∧
    (LighthouseRunner.runBody opts env url t0).2.contextAcquired = t0.contextAcquired := by
  unfold LighthouseRunner.runBody LighthouseRunner.auditStep LighthouseRunner.afterNavTrace
  repeat' split
  all_goals exact ⟨rfl, rfl⟩

theorem run_split (opts : LighthouseRunnerOptions) (env : RunEnv)
    (hurl : env.urlValid = true) (hlaunch : env.launchOk = true) :
    (LighthouseRunner.run opts env).1 =
      (LighthouseRunner.runBody opts env (opts.baseUrl ++ opts.route.path)
        { contextAcquired := true }).1 ∧
    (LighthouseRunner.run opts env).2 =
      { (LighthouseRunner.runBody opts env (opts.baseUrl ++ opts.route.path)
          { contextAcquired := true }).2 with
        contextReleased :=
          (LighthouseRunner.runBody opts env (opts.baseUrl ++ opts.route.path)
            { contextAcquired := true }).2.contextReleased + 1 } := by
  unfold LighthouseRunner.run
  rw [hurl, hlaunch]
  simp only [Bool.true_eq_false, if_false]
  split <;> simp_all

theorem runBody_ok_spec (opts : LighthouseRunnerOptions) (env : RunEnv) (url : String)
    (t0 : RunTrace) (result : AuditResult) (t : RunTrace)
    (h : LighthouseRunner.runBody opts env url t0 = (Except.ok result, t)) :
    result.thresholds = getRouteThresholds (opts.globalThresholds.getD {})
      opts.route.thresholds ∧
    result.passed = auditPassed result.scores result.thresholds ∧
    result.url = url ∧
    result.routeName = opts.route.name ∧
    (∃ categories, env.engine = EngineOutcome.report categories ∧
      result.scores = normalizeScores (LighthouseRunner.extractedScores categories)) := by
  unfold LighthouseRunner.runBody LighthouseRunner.auditStep at h
  repeat' split at h
  all_goals simp only [Prod.mk.injEq, Except.ok.injEq] at h
  all_goals obtain ⟨h1, h2⟩ := h
  all_goals first
    | (subst h1; exact ⟨rfl, rfl, rfl, rfl, _, by assumption, rfl⟩)
    | simp at h1

theorem run_ok_spec (opts : LighthouseRunnerOptions) (env : RunEnv) (result : AuditResult)
    (h : (LighthouseRunner.run opts env).1 = Except.ok result) :
    result.thresholds = getRouteThresholds (opts.globalThresholds.getD {})
      opts.route.thresholds ∧
    result.passed = auditPassed result.scores result.thresholds ∧
    result.url = opts.baseUrl ++ opts.route.path ∧
    result.routeName = opts.route.name ∧
    (∃ categories, env.engine = EngineOutcome.report categories ∧
      result.scores = normalizeScores (LighthouseRunner.extractedScores categories)) := by
  unfold LighthouseRunner.run at h
  split at h
  · simp at h
  · split at h
    · simp at h
    · split at h
      · rename_i result' t heq
        simp at h
        subst h
        exact runBody_ok_spec _ _ _ _ _ _ heq
      · rename_i e t heq
        simp at h

theorem auditStep_snd (opts : LighthouseRunnerOptions) (env : RunEnv) (url : String)
    (t : RunTrace) : (LighthouseRunner.auditStep opts env url t).2 = t := by
  unfold LighthouseRunner.auditStep
  repeat' split
  all_goals rfl

theorem runBody_cookieError (opts : LighthouseRunnerOptions) (env : RunEnv) (url : String)
    (t0 : RunTrace) (e : RunError)
    (h : LighthouseRunner.cookieInjection opts env = Except.error e) :
    LighthouseRunner.runBody opts env url t0 = (Except.error e, t0) := by
  unfold LighthouseRunner.runBody
  rw [h]

theorem runBody_cookiesInjected (opts : LighthouseRunnerOptions) (env : RunEnv) (url : String)
    (t0 : RunTrace) (injected : Option (List PlaywrightCookie))
    (h : LighthouseRunner.cookieInjection opts env = Except.ok injected) :
    (LighthouseRunner.runBody opts env url t0).2.cookiesInjected = injected := by
  unfold LighthouseRunner.runBody
  rw [h]
  repeat' split
  all_goals simp_all [auditStep_snd, LighthouseRunner.afterNavTrace]

theorem mergesKey_nullish (a b : Option ℚ) (d : ℚ) :
    mergesKey a b (some ((nullish a b).getD d)) d := by
  cases a <;> cases b <;> simp [mergesKey, nullish]

/-! ### Claims -/

/-- C3: a stored credential with domain `d` is included in the
`getByDomain` result for target domain `t` if and only if `d = t`, or
`d = "." ++ t`, or `t` ends with `d`. -/
theorem C3_domain_matching_iff (cookies : List Cookie) (c : Cookie) (d t : String)
    (hc : c ∈ cookies) (hd : c.domain = some d) :
    normalizeCookie c ∈ CookieManager.getByDomain cookies t ↔
      (d = t ∨ d = "." ++ t ∨ strEndsWith t d = true) := by
  rw [mem_getByDomain cookies c t hc]
  exact cookieMatchesDomain_some _ d t (by rw [normalizeCookie_domain, hd])

/-- Witness for C3: the dot-prefixed wildcard credential `.example.com`
matches the target domain `app.example.com` via the suffix clause. -/
theorem C3_domain_matching_iff_witness :
    normalizeCookie wildcardCookie ∈
      CookieManager.getByDomain [wildcardCookie] "app.example.com" :=
  (C3_domain_matching_iff [wildcardCookie] wildcardCookie ".example.com" "app.example.com"
    (by simp) rfl).mpr (by decide)

/-- C4: for every pair of optional global and per-route threshold sets and
every category key, the merged effective threshold is the per-route value
when present, else the global value when present, else the built-in
default: performance 25, accessibility 50, best-practices 50, seo 50. -/
theorem C4_threshold_merge (g : LighthouseThresholds) (r : Option LighthouseThresholds) :
    mergesKey (r.bind fun t => t.performance) g.performance
      (getRouteThresholds g r).performance 25 ∧
    mergesKey (r.bind fun t => t.accessibility) g.accessibility
      (getRouteThresholds g r).accessibility 50 ∧
    mergesKey (r.bind fun t => t.bestPractices) g.bestPractices
      (getRouteThresholds g r).bestPractices 50 ∧
    mergesKey (r.bind fun t => t.seo) g.seo
      (getRouteThresholds g r).seo 50 :=
  ⟨mergesKey_nullish _ _ _, mergesKey_nullish _ _ _,
   mergesKey_nullish _ _ _, mergesKey_nullish _ _ _⟩

/-- Witness for C4: per-route 75 beats global 50; global 50 alone wins;
with neither layer present the built-in default 25 applies. -/
theorem C4_threshold_merge_witness :
    (getRouteThresholds { performance := some 50 }
      (some { performance := some 75 })).performance = some 75 ∧
    (getRouteThresholds { performance := some 50 } none).performance = some 50 ∧
    (getRouteThresholds {} none).performance = some 25 :=
  ⟨(C4_threshold_merge { performance := some 50 }
      (some { performance := some 75 })).1.1 75 rfl,
   (C4_threshold_merge { performance := some 50 } none).1.2.1 rfl 50 rfl,
   (C4_threshold_merge {} none).1.2.2 rfl rfl⟩

/-- C6: score normalization divides every category by 100 exactly when the
performance score is greater than 1 and is the identity otherwise; in
particular on a report already in [0,1] it is the identity. -/
theorem C6_normalization (scores : CategoryScores) :
    (scores.performance > 1 →
      normalizeScores scores =
        { performance := scores.performance / 100
          accessibility := scores.accessibility / 100
          bestPractices := scores.bestPractices / 100
          seo := scores.seo / 100 }) ∧
    (¬ scores.performance > 1 → normalizeScores scores = scores) ∧
    (scoresInUnit scores → normalizeScores scores = scores) := by
  refine ⟨fun h => by simp [normalizeScores, h], fun h => by simp [normalizeScores, h],
    fun h => ?_⟩
  have hle : ¬ scores.performance > 1 := by
    rcases h with ⟨⟨-, h1⟩, -⟩
    exact not_lt.mpr h1
  simp [normalizeScores, hle]

/-- Witness for C6: the 0-100-scale report 78/92/88/95 is divided by 100,
and the already-normalized report 0.78/0.92/0.88/0.95 is left unchanged. -/
theorem C6_normalization_witness :
    normalizeScores { performance := 78, accessibility := 92,
                      bestPractices := 88, seo := 95 } =
      { performance := 78 / 100, accessibility := 92 / 100,
        bestPractices := 88 / 100, seo := 95 / 100 } ∧
    normalizeScores { performance := 78 / 100, accessibility := 92 / 100,
                      bestPractices := 88 / 100, seo := 95 / 100 } =
      { performance := 78 / 100, accessibility := 92 / 100,
        bestPractices := 88 / 100, seo := 95 / 100 } :=
  ⟨(C6_normalization _).1 (by norm_num),
   (C6_normalization _).2.2 (by norm_num [scoresInUnit])⟩

/-- C1 counterexample: the engine report 1/92/88/95 on the 0-100 scale
(performance exactly 1) escapes normalization, and the recorded
AuditOutcome carries scores outside [0,1]. -/
theorem C1_counterexample :
    (LighthouseRunner.run homeOptions misScaledEnv).1 = Except.ok misScaledResult ∧
    ¬ scoresInUnit misScaledResult.scores := by
  constructor
  · norm_num [LighthouseRunner.run, LighthouseRunner.runBody, LighthouseRunner.auditStep,
      LighthouseRunner.cookieInjection, LighthouseRunner.afterNavTrace,
      LighthouseRunner.extractedScores, homeOptions, misScaledEnv, misScaledCategories,
      misScaledResult, getRouteThresholds, nullish, normalizeScores, auditPassed,
      missingScores, CookieManager.isEmpty]
    rfl
  · decide

/-- C1 (amended): the normalized scores recorded in the AuditOutcome are
in [0,1] provided the raw report is either already within [0,1] or has a
performance score greater than 1 with every category within [0,100]. -/
theorem C1_normalized_scores_conditional (opts : LighthouseRunnerOptions) (env : RunEnv)
    (result : AuditResult) (categories : RawCategories)
    (hok : (LighthouseRunner.run opts env).1 = Except.ok result)
    (hcat : env.engine = EngineOutcome.report categories)
    (hscale : scoresInUnit (LighthouseRunner.extractedScores categories) ∨
      ((LighthouseRunner.extractedScores categories).performance > 1 ∧
        scoresInRange100 (LighthouseRunner.extractedScores categories))) :
    scoresInUnit result.scores := by
  obtain ⟨-, -, -, -, categories', hcat', hscores⟩ := run_ok_spec opts env result hok
  have hc : categories = categories' :=
    EngineOutcome.report.inj (hcat.symm.trans hcat')
  subst hc
  rw [hscores]
  rcases hscale with hunit | ⟨hgt, hrange⟩
  · have hle : ¬ (LighthouseRunner.extractedScores categories).performance > 1 := by
      rcases hunit with ⟨⟨-, h1⟩, -⟩
      exact not_lt.mpr h1
    simpa [normalizeScores, hle] using hunit
  · obtain ⟨⟨hp0, hp1⟩, ⟨ha0, ha1⟩, ⟨hb0, hb1⟩, ⟨hs0, hs1⟩⟩ := hrange
    rw [normalizeScores, if_pos hgt]
    refine ⟨⟨div_nonneg hp0 (by norm_num), ?_⟩, ⟨div_nonneg ha0 (by norm_num), ?_⟩,
      ⟨div_nonneg hb0 (by norm_num), ?_⟩, ⟨div_nonneg hs0 (by norm_num), ?_⟩⟩ <;>
    · rw [div_le_one (by norm_num : (0:ℚ) < 100)]
      assumption

/-- Witness for the amended C1: scenario A (0-100-scale report 78/92/88/95)
yields an outcome whose recorded scores are in [0,1]. -/
theorem C1_normalized_scores_conditional_witness :
    scoresInUnit scenarioAResult.scores :=
  C1_normalized_scores_conditional scenarioAOptions scenarioAEnv scenarioAResult
    { performance := some 78, accessibility := some 92,
      bestPractices := some 88, seo := some 95 }
    (by
      norm_num [LighthouseRunner.run, LighthouseRunner.runBody, LighthouseRunner.auditStep,
        LighthouseRunner.cookieInjection, LighthouseRunner.afterNavTrace,
        LighthouseRunner.extractedScores, scenarioAOptions, scenarioAEnv, scenarioAResult,
        getRouteThresholds, nullish, normalizeScores, auditPassed, missingScores,
        CookieManager.isEmpty]
      rfl)
    rfl
    (Or.inr ⟨by norm_num [LighthouseRunner.extractedScores],
      by norm_num [LighthouseRunner.extractedScores, scoresInRange100]⟩)

/-- C2 counterexample: the credential stored for `other.com` does not
match the target domain `example.com` under `getByDomain`, yet the
authenticated run against `https://example.com` injects it anyway — the
run flow injects all stored credentials, not the domain-matched subset. -/
theorem C2_counterexample :
    CookieManager.getByDomain [otherDomainCookie] "example.com" = [] ∧
    (LighthouseRunner.run dashOptions dashEnv).2.cookiesInjected =
      some [toPlaywrightCookie (normalizeCookie otherDomainCookie)] :=
  ⟨by decide, by decide⟩

/-- C2 (amended): for an authenticated route whose credential source loads
a non-empty cookie set, session setup injects the entire normalized
credential store, irrespective of any target domain; `getByDomain` is not
consulted by the run flow. -/
theorem C2_all_cookies_injected (opts : LighthouseRunnerOptions) (env : RunEnv)
    (authFile : String) (cookies : List Cookie)
    (hurl : env.urlValid = true) (hlaunch : env.launchOk = true)
    (hauth : opts.route.authenticated.getD false = true)
    (hfile : opts.authFile = some authFile)
    (hload : env.authLoad = Except.ok cookies)
    (hne : CookieManager.isEmpty cookies = false) :
    (LighthouseRunner.run opts env).2.cookiesInjected =
      some ((CookieManager.getNormalized cookies).map toPlaywrightCookie) := by
  obtain ⟨-, hsnd⟩ := run_split opts env hurl hlaunch
  have hci : LighthouseRunner.cookieInjection opts env =
      Except.ok (some ((CookieManager.asPlaywrightCookies cookies).map toPlaywrightCookie)) := by
    simp [LighthouseRunner.cookieInjection, hauth, hfile, hload, hne]
  have hinj := runBody_cookiesInjected opts env (opts.baseUrl ++ opts.route.path)
    { contextAcquired := true } _ hci
  rw [hsnd]
  simpa [CookieManager.asPlaywrightCookies] using hinj

/-- Witness for the amended C2: the run for the authenticated route
injects exactly the normalized form of the stored cookie list. -/
theorem C2_all_cookies_injected_witness :
    (LighthouseRunner.run dashOptions dashEnv).2.cookiesInjected =
      some ((CookieManager.getNormalized [otherDomainCookie]).map toPlaywrightCookie) :=
  C2_all_cookies_injected dashOptions dashEnv "auth.json" [otherDomainCookie]
    rfl rfl rfl rfl rfl rfl

/-- C5: for every run that produces an AuditOutcome, all four effective
thresholds are present and the outcome's passed flag is true exactly when
each normalized score times 100 is at least its effective threshold (so a
score exactly equal to its threshold passes, and the four categories are
checked individually with no weighted aggregate). -/
theorem C5_passed_iff (opts : LighthouseRunnerOptions) (env : RunEnv) (result : AuditResult)
    (h : (LighthouseRunner.run opts env).1 = Except.ok result) :
    ∃ tp ta tb ts : ℚ,
      result.thresholds = { performance := some tp, accessibility := some ta,
                            bestPractices := some tb, seo := some ts } ∧
      (result.passed = true ↔
        (result.scores.performance * 100 ≥ tp ∧
         result.scores.accessibility * 100 ≥ ta ∧
         result.scores.bestPractices * 100 ≥ tb ∧
         result.scores.seo * 100 ≥ ts)) := by
  obtain ⟨hth, hp, -, -, -⟩ := run_ok_spec opts env result h
  refine ⟨_, _, _, _, hth, ?_⟩
  rw [hp, hth]
  exact auditPassed_true_iff _ _ _ _ _

/-- Witness for C5: scenario A's outcome (scores 0.78/0.92/0.88/0.95,
thresholds 50/80/80/80) satisfies the characterization. -/
theorem C5_passed_iff_witness :
    ∃ tp ta tb ts : ℚ,
      scenarioAResult.thresholds =
        { performance := some tp, accessibility := some ta,
          bestPractices := some tb, seo := some ts } ∧
      (scenarioAResult.passed = true ↔
        (scenarioAResult.scores.performance * 100 ≥ tp ∧
         scenarioAResult.scores.accessibility * 100 ≥ ta ∧
         scenarioAResult.scores.bestPractices * 100 ≥ tb ∧
         scenarioAResult.scores.seo * 100 ≥ ts)) :=
  C5_passed_iff scenarioAOptions scenarioAEnv scenarioAResult
    (by
      norm_num [LighthouseRunner.run, LighthouseRunner.runBody, LighthouseRunner.auditStep,
        LighthouseRunner.cookieInjection, LighthouseRunner.afterNavTrace,
        LighthouseRunner.extractedScores, scenarioAOptions, scenarioAEnv, scenarioAResult,
        getRouteThresholds, nullish, normalizeScores, auditPassed, missingScores,
        CookieManager.isEmpty]
      rfl)

/-- C7: for an authenticated route (with a constructible URL and a
launchable browser), a missing auth file fails with the
authFileNotConfigured error before any navigation is attempted; an auth
file that loads an empty cookie set fails with the distinct authNoCookies
error, also before navigation; neither case produces an AuditOutcome. -/
theorem C7_auth_errors (opts : LighthouseRunnerOptions) (env : RunEnv)
    (hurl : env.urlValid = true) (hlaunch : env.launchOk = true)
    (hauth : opts.route.authenticated.getD false = true) :
    (opts.authFile = none →
      (LighthouseRunner.run opts env).1 =
        Except.error (RunError.authFileNotConfigured opts.route.name) ∧
      (LighthouseRunner.run opts env).2.navigationAttempted = false) ∧
    (∀ authFile, opts.authFile = some authFile →
      env.authLoad = Except.ok [] →
      (LighthouseRunner.run opts env).1 =
        Except.error (RunError.authNoCookies authFile) ∧
      (LighthouseRunner.run opts env).2.navigationAttempted = false) ∧
    (∀ n authFile, RunError.authFileNotConfigured n ≠ RunError.authNoCookies authFile) := by
  obtain ⟨hfst, hsnd⟩ := run_split opts env hurl hlaunch
  refine ⟨?_, ?_, by intro n authFile; simp⟩
  · intro hfile
    have hb := runBody_cookieError opts env (opts.baseUrl ++ opts.route.path)
      { contextAcquired := true } (RunError.authFileNotConfigured opts.route.name)
      (by simp [LighthouseRunner.cookieInjection, hauth, hfile])
    constructor
    · rw [hfst, hb]
    · rw [hsnd, hb]
  · intro authFile hfile hload
    have hb := runBody_cookieError opts env (opts.baseUrl ++ opts.route.path)
      { contextAcquired := true } (RunError.authNoCookies authFile)
      (by simp [LighthouseRunner.cookieInjection, hauth, hfile, hload,
        CookieManager.isEmpty])
    constructor
    · rw [hfst, hb]
    · rw [hsnd, hb]

/-- Witness for C7: the authenticated route with no auth file fails with
authFileNotConfigured, and the same route with an empty loaded cookie set
fails with authNoCookies. -/
theorem C7_auth_errors_witness :
    (LighthouseRunner.run noAuthFileOptions dashEnv).1 =
      Except.error (RunError.authFileNotConfigured "dash") ∧
    (LighthouseRunner.run dashOptions { dashEnv with authLoad := Except.ok [] }).1 =
      Except.error (RunError.authNoCookies "auth.json") :=
  ⟨((C7_auth_errors noAuthFileOptions dashEnv rfl rfl rfl).1 rfl).1,
   ((C7_auth_errors dashOptions { dashEnv with authLoad := Except.ok [] }
      rfl rfl rfl).2.1 "auth.json" rfl rfl).1⟩

/-- C8: once the cookie-injection step succeeds, a navigation that yields
no HTTP response fails with a navigationError carrying the resolved URL
`baseUrl ++ route.path`, and a response with HTTP status at least 400
fails with a navigationError carrying the resolved URL and that status;
in both cases no AuditOutcome is produced. -/
theorem C8_navigation_errors (opts : LighthouseRunnerOptions) (env : RunEnv)
    (hurl : env.urlValid = true) (hlaunch : env.launchOk = true)
    (hauth : authStepOk opts env) :
    (env.nav = NavOutcome.noResponse →
      (LighthouseRunner.run opts env).1 =
        Except.error (RunError.navigationError (opts.baseUrl ++ opts.route.path)
          NavCause.noResponse)) ∧
    (∀ status, env.nav = NavOutcome.response status → 400 ≤ status →
      (LighthouseRunner.run opts env).1 =
        Except.error (RunError.navigationError (opts.baseUrl ++ opts.route.path)
          (NavCause.httpStatus status))) := by
  obtain ⟨hfst, -⟩ := run_split opts env hurl hlaunch
  have hci : ∃ injected, LighthouseRunner.cookieInjection opts env = Except.ok injected := by
    rcases hauth with hfalse | ⟨authFile, cookies, hf, hl, hne⟩
    · exact ⟨none, by simp [LighthouseRunner.cookieInjection, hfalse]⟩
    · by_cases ha : opts.route.authenticated.getD false = true
      · exact ⟨some ((CookieManager.asPlaywrightCookies cookies).map toPlaywrightCookie),
          by simp [LighthouseRunner.cookieInjection, ha, hf, hl, hne]⟩
      · have ha' : opts.route.authenticated.getD false = false := by
          simpa using ha
        exact ⟨none, by simp [LighthouseRunner.cookieInjection, ha']⟩
  obtain ⟨injected, hci⟩ := hci
  constructor
  · intro hnav
    rw [hfst]
    unfold LighthouseRunner.runBody
    rw [hci, hnav]
  · intro status hnav hge
    rw [hfst]
    unfold LighthouseRunner.runBody
    rw [hci, hnav]
    simp [Nat.le_of_lt, hge]

/-- Witness for C8: an unauthenticated route receiving HTTP 404 fails with
the navigationError carrying `https://example.com/` and status 404. -/
theorem C8_navigation_errors_witness :
    (LighthouseRunner.run homeOptions { misScaledEnv with nav := NavOutcome.response 404 }).1 =
      Except.error (RunError.navigationError "https://example.com/"
        (NavCause.httpStatus 404)) :=
  (C8_navigation_errors homeOptions { misScaledEnv with nav := NavOutcome.response 404 }
    rfl rfl (Or.inl rfl)).2 404 rfl (by norm_num)

/-- C9: every run that acquires the browser execution context releases it
exactly once, on the success path and on every error path alike. -/
theorem C9_release_once (opts : LighthouseRunnerOptions) (env : RunEnv)
    (h : (LighthouseRunner.run opts env).2.contextAcquired = true) :
    (LighthouseRunner.run opts env).2.contextReleased = 1 := by
  by_cases hurl : env.urlValid = true
  · by_cases hlaunch : env.launchOk = true
    · obtain ⟨-, hsnd⟩ := run_split opts env hurl hlaunch
      rw [hsnd]
      have ht := (runBody_trace opts env (opts.baseUrl ++ opts.route.path)
        { contextAcquired := true }).1
      simp [ht]
    · have hlaunch' : env.launchOk = false := by simpa using hlaunch
      unfold LighthouseRunner.run at h
      rw [hurl, hlaunch'] at h
      simp at h
  · have hurl' : env.urlValid = false := by simpa using hurl
    unfold LighthouseRunner.run at h
    rw [hurl'] at h
    simp at h

/-- Witness for C9: the authenticated run (which fails at the engine step)
acquired the context and released it exactly once. -/
theorem C9_release_once_witness :
    (LighthouseRunner.run dashOptions dashEnv).2.contextReleased = 1 :=
  C9_release_once dashOptions dashEnv (by decide)

/-- C10: a stored credential whose domain field is absent or empty is
included in the `getByDomain` result for every target domain, because the
suffix check against the empty string always succeeds. -/
theorem C10_empty_domain_matches_all (cookies : List Cookie) (c : Cookie) (t : String)
    (hc : c ∈ cookies) (hd : c.domain = none ∨ c.domain = some "") :
    normalizeCookie c ∈ CookieManager.getByDomain cookies t := by
  rw [mem_getByDomain cookies c t hc]
  have hdom : jsStringOr (normalizeCookie c).domain "" = "" := by
    rw [normalizeCookie_domain]
    rcases hd with h | h <;> simp [h, jsStringOr]
  simp [CookieManager.cookieMatchesDomain, hdom, strEndsWith_empty]

/-- Witness for C10: the credential with no domain matches the target
domain `example.com`. -/
theorem C10_empty_domain_matches_all_witness :
    normalizeCookie emptyDomainCookie ∈
      CookieManager.getByDomain [emptyDomainCookie] "example.com" :=
  C10_empty_domain_matches_all [emptyDomainCookie] emptyDomainCookie "example.com"
    (by simp) (Or.inl rfl)


end LighthouseAutomation
